import Mathlib

/-!
Shallow embedding of the chat-client HTTP access layer
(`src/services/axios.js`): the retry/backoff configuration, the
exponential-backoff delay, retryable-error classification, the response
interceptor (network-error branch, status→message table, 401
refresh/replay branch), the retry loop, and the `FileService` upload
orchestrator with its URL and formatting helpers.

Conventions of the embedding:
* JavaScript numbers that carry durations or fractions are embedded as `ℚ`;
  byte counts, HTTP statuses and retry counters as `ℕ`.
* JavaScript string truthiness (`""` is falsy) is embedded by `strTruthy`;
  an absent (`undefined`/`null`) field is `Option.none`.
* Asynchronous effects are embedded as explicit outcomes: the response
  interceptor returns a `HandlerOutcome` together with the flag telling
  whether `authService.logout()` was invoked, and the upload orchestrator
  returns its result together with the ordered list of network operations
  it issued.
-/

/-- JavaScript truthiness of an optional string: present and non-empty. -/
def strTruthy : Option String → Bool
  | none => false
  | some s => s ≠ ""

/-- JavaScript `a || b` on an optional string: `b` when `a` is absent or empty. -/
def strOr (a : Option String) (b : String) : String :=
  match a with
  | none => b
  | some s => if s = "" then b else s

/-- The `RETRY_CONFIG` record of `axios.js` (lines 8–21). -/
structure RetryConfig where
  maxRetries : Nat
  initialDelayMs : ℚ
  maxDelayMs : ℚ
  backoffFactor : ℚ
  retryableStatuses : List Nat
  retryableErrors : List String

def RETRY_CONFIG : RetryConfig where
  maxRetries := 3
  initialDelayMs := 1000
  maxDelayMs := 5000
  backoffFactor := 2
  retryableStatuses := [408, 429, 500, 502, 503, 504]
  retryableErrors := ["ECONNABORTED", "ETIMEDOUT", "ENOTFOUND", "ENETUNREACH", "ERR_NETWORK"]

/-- `getRetryDelay` (axios.js lines 44–50).  `rand` stands for the value of
`Math.random()`, a number in `[0, 1)`; the jitter factor added to 1 is
`rand * 0.1`.  `delay = initialDelayMs * backoffFactor ^ retryCount * (1 + rand*0.1)`,
then `Math.min(delay, maxDelayMs)`. -/
def getRetryDelay (rand : ℚ) (retryCount : Nat) : ℚ :=
  min (RETRY_CONFIG.initialDelayMs * RETRY_CONFIG.backoffFactor ^ retryCount
        * (1 + rand * (1/10)))
      RETRY_CONFIG.maxDelayMs

/-- The `data` payload of an error response (`error.response.data`). -/
structure ErrData where
  message : Option String
  code : Option String
  deriving DecidableEq, Repr

/-- A received HTTP response attached to an axios error (`error.response`). -/
structure ErrResponse where
  status : Nat
  data : Option ErrData
  deriving DecidableEq, Repr

/-- The per-request config object (`error.config`), restricted to the fields
the interceptor reads or writes.  `retryCount` embeds
`config.retryCount || 0` (an absent counter is 0).  `authToken` is the
`x-auth-token` header slot. -/
structure ReqConfig where
  url : String
  method : String
  retryCount : Nat
  authToken : Option String
  deriving DecidableEq, Repr

/-- An axios failure as seen by the response interceptor.  `request` is the
truthiness of `error.request` (the request was actually sent); `isCancel`
embeds `axios.isCancel(error)`. -/
structure AxiosError where
  config : ReqConfig
  isCancel : Bool
  code : Option String
  response : Option ErrResponse
  request : Bool
  deriving DecidableEq, Repr

/-- `isRetryableError` (axios.js lines 52–67).  The three guards in order:
a truthy `error.code` contained in `retryableErrors`; a truthy
`error.response?.status` contained in `retryableStatuses`; no response but a
truthy `error.request`. -/
def isRetryableError : Option AxiosError → Bool
  | none => false
  | some e =>
    if (match e.code with
        | some c => decide (c ≠ "") && RETRY_CONFIG.retryableErrors.contains c
        | none => false) then
      true
    else if (match e.response with
             | some r => decide (r.status ≠ 0) && RETRY_CONFIG.retryableStatuses.contains r.status
             | none => false) then
      true
    else if e.response.isNone && e.request then
      true
    else
      false

/-- The message of the network-unreachable error (axios.js lines 143–151):
the two fixed sentences plus `(Error: <code>)` when a truthy code is
present, joined by spaces after filtering out empty parts. -/
def networkErrMessage (code : Option String) : String :=
  String.intercalate " "
    ((["서버와 통신할 수 없습니다.",
       "네트워크 연결을 확인하고 잠시 후 다시 시도해주세요.",
       if strTruthy code then "(Error: " ++ code.getD "" ++ ")" else ""]).filter (· ≠ ""))

/-- The `customError` built on the no-response branch (axios.js lines 142–168).
`replayCfg` embeds the `retry` closure: it re-issues exactly the captured
config through `axiosInstance`. -/
structure NetworkError where
  message : String
  isNetworkError : Bool
  status : Nat
  code : String
  replayCfg : ReqConfig
  deriving DecidableEq, Repr

def buildNetworkError (e : AxiosError) : NetworkError where
  message := networkErrMessage e.code
  isNetworkError := true
  status := 0
  code := strOr e.code "NETWORK_ERROR"
  replayCfg := e.config

/-- The status→message table of the response interceptor
(axios.js lines 177–210); `errorData?.message || fallback` fallbacks are
embedded with `strOr`. -/
def errorMessageFor (status : Nat) (d : Option ErrData) : String :=
  match status with
  | 400 => strOr (d.bind ErrData.message) "잘못된 요청입니다."
  | 401 => "인증이 필요하거나 만료되었습니다."
  | 403 => strOr (d.bind ErrData.message) "접근 권한이 없습니다."
  | 404 => strOr (d.bind ErrData.message) "요청한 리소스를 찾을 수 없습니다."
  | 408 => "요청 시간이 초과되었습니다."
  | 429 => "너무 많은 요청이 발생했습니다. 잠시 후 다시 시도해주세요."
  | 500 => "서버 오류가 발생했습니다. 잠시 후 다시 시도해주세요."
  | 502 => "서버가 일시적으로 응답할 수 없습니다. 잠시 후 다시 시도해주세요."
  | 503 => "서버가 일시적으로 응답할 수 없습니다. 잠시 후 다시 시도해주세요."
  | 504 => "서버가 일시적으로 응답할 수 없습니다. 잠시 후 다시 시도해주세요."
  | _ => strOr (d.bind ErrData.message) "예기치 않은 오류가 발생했습니다."

/-- The `enhancedError` built for a received response (axios.js lines
212–225): status-selected message, response status, `errorData?.code`, and
the manual `retry` closure over the captured config. -/
structure EnhancedError where
  message : String
  status : Nat
  code : Option String
  replayCfg : ReqConfig
  deriving DecidableEq, Repr

def buildEnhancedError (status : Nat) (d : Option ErrData) (cfg : ReqConfig) : EnhancedError where
  message := errorMessageFor status d
  status := status
  code := d.bind ErrData.code
  replayCfg := cfg

/-- AuthService session object (`authService.getCurrentUser()`). -/
structure User where
  token : Option String
  sessionId : Option String
  deriving DecidableEq, Repr

/-- Outcome of `await authService.refreshToken()`: it may throw, or return a
boolean. -/
inductive RefreshResult where
  | threw
  | returned (b : Bool)

/-- The external-collaborator environment the 401 branch consults:
what `refreshToken()` does, and what `getCurrentUser()` yields afterwards. -/
structure AuthEnv where
  refresh : RefreshResult
  userAfterRefresh : Option User

/-- What the response-error interceptor does with one failure. -/
inductive HandlerOutcome where
  /-- `axios.isCancel(error)`: the original error is re-rejected unchanged. -/
  | surfaceCancel
  /-- the backoff branch: wait `getRetryDelay`, re-dispatch the config whose
  `retryCount` was incremented. -/
  | backoffRetry (cfg : ReqConfig)
  /-- the no-response branch throws the `customError`. -/
  | surfaceNetwork (err : NetworkError)
  /-- 401 with successful refresh and usable token: the config is replayed
  through `axiosInstance` with the refreshed `x-auth-token`. -/
  | replay (cfg : ReqConfig)
  /-- the `enhancedError` is thrown. -/
  | surfaceEnhanced (err : EnhancedError)
  deriving DecidableEq, Repr

/-- The response-error interceptor (axios.js lines 109–248) for one
invocation.  Returns the outcome together with the flag telling whether
`authService.logout()` was invoked.  The branch order follows the source:
cancellation, the backoff-retry branch, the no-response branch, the
status→message table, then the 401 refresh block before the final
`throw enhancedError`. -/
def handleResponseError (env : AuthEnv) (e : AxiosError) : HandlerOutcome × Bool :=
  let cfg := e.config
  if e.isCancel then
    (.surfaceCancel, false)
  else if isRetryableError (some e) ∧ cfg.retryCount < RETRY_CONFIG.maxRetries then
    (.backoffRetry { cfg with retryCount := cfg.retryCount + 1 }, false)
  else
    match e.response with
    | none => (.surfaceNetwork (buildNetworkError e), false)
    | some resp =>
      let enhanced := buildEnhancedError resp.status resp.data cfg
      if resp.status = 401 then
        match env.refresh with
        | .threw => (.surfaceEnhanced enhanced, true)
        | .returned false => (.surfaceEnhanced enhanced, false)
        | .returned true =>
          match env.userAfterRefresh with
          | some u =>
            if strTruthy u.token then
              (.replay { cfg with authToken := u.token }, false)
            else
              (.surfaceEnhanced enhanced, false)
          | none => (.surfaceEnhanced enhanced, false)
      else
        (.surfaceEnhanced enhanced, false)

/-- Outcome of dispatching one attempt of a request: success, or failure
with the axios error observed. -/
inductive AttemptOutcome where
  | ok
  | fail (e : AxiosError)

/-- The retry loop the response interceptor implements by re-entering
`axiosInstance(config)` (axios.js lines 109–140): `oracle n` is the
outcome of the attempt dispatched with `config.retryCount = n`.  On a
failure the backoff branch fires exactly when the error is retryable and
the counter is still below `maxRetries`, and re-dispatches with the counter
incremented by one.  Returns the final counter and whether the loop ended
in success. -/
def retryLoop (oracle : Nat → AttemptOutcome) (rc : Nat) : Nat × Bool :=
  match oracle rc with
  | .ok => (rc, true)
  | .fail e =>
    if h : isRetryableError (some e) ∧ rc < RETRY_CONFIG.maxRetries then
      retryLoop oracle (rc + 1)
    else
      (rc, false)
termination_by RETRY_CONFIG.maxRetries - rc
decreasing_by exact Nat.sub_succ_lt_self _ _ h.2

/-! ### Percent-encoding helpers

`FileService` builds query strings through the browser's
`encodeURIComponent` and `URLSearchParams`; both are embedded here as
character-wise percent-encoders over the UTF-8 bytes of the string. -/

/-- Uppercase hexadecimal digit for `n < 16`. -/
def hexDigit (n : Nat) : Char :=
  if n < 10 then Char.ofNat (48 + n) else Char.ofNat (55 + n)

/-- UTF-8 byte sequence of one character. -/
def utf8Bytes (c : Char) : List Nat :=
  let n := c.toNat
  if n < 0x80 then [n]
  else if n < 0x800 then [0xC0 + n / 0x40, 0x80 + n % 0x40]
  else if n < 0x10000 then [0xE0 + n / 0x1000, 0x80 + n / 0x40 % 0x40, 0x80 + n % 0x40]
  else [0xF0 + n / 0x40000, 0x80 + n / 0x1000 % 0x40, 0x80 + n / 0x40 % 0x40, 0x80 + n % 0x40]

/-- `%XX` escape sequence(s) for one character. -/
def percentEncodeChar (c : Char) : String :=
  String.join ((utf8Bytes c).map (fun b => String.mk ['%', hexDigit (b / 16), hexDigit (b % 16)]))

/-- The characters `encodeURIComponent` leaves unescaped
(ECMA-262 `uriUnescaped`). -/
def isUriUnreserved (c : Char) : Bool :=
  c.isAlphanum || (['-', '_', '.', '!', '~', '*', Char.ofNat 39, '(', ')'] : List Char).contains c

/-- The browser's `encodeURIComponent`. -/
def encodeURIComponent (s : String) : String :=
  String.join (s.data.map (fun c => if isUriUnreserved c then String.mk [c] else percentEncodeChar c))

/-- The characters the `application/x-www-form-urlencoded` serializer used
by `URLSearchParams.toString()` leaves unescaped. -/
def isFormSafe (c : Char) : Bool :=
  c.isAlphanum || (['*', '-', '.', '_'] : List Char).contains c

/-- `application/x-www-form-urlencoded` escaping of one value, as performed
by `URLSearchParams.toString()` (space becomes `+`). -/
def formEncode (s : String) : String :=
  String.join (s.data.map (fun c =>
    if isFormSafe c then String.mk [c]
    else if c = ' ' then "+"
    else percentEncodeChar c))

/-- `URLSearchParams.toString()` over appended `(key, value)` pairs. -/
def searchParamsToString (ps : List (String × String)) : String :=
  String.intercalate "&" (ps.map (fun p => p.1 ++ "=" ++ formEncode p.2))

/-! ### FileService (`src/services/axios.js`, second module) -/

/-- A browser `File` handed to the upload orchestrator. -/
structure UploadFile where
  name : String
  type : String
  size : Nat
  deriving DecidableEq, Repr

/-- The upload session returned by `/upload/init` (`response.data.data`). -/
structure UploadData where
  uploadId : String
  uploadUrl : String
  deriving DecidableEq, Repr

/-- A server-side file record (`response.data.data.file`; also the argument
of `getPreviewUrl`). -/
structure FileRecord where
  filename : String
  deriving DecidableEq, Repr

/-- Result shape of `validateFile` / `uploadFile`. -/
structure UploadResult where
  success : Bool
  message : Option String
  data : Option FileRecord
  deriving DecidableEq, Repr

/-- `this.uploadLimit = 50 * 1024 * 1024` (50 MiB). -/
def uploadLimit : Nat := 50 * 1024 * 1024

/-- `FileService.validateFile`: structured, non-raising pre-check (the
`Toast.error` notification side effect is not modelled). -/
def validateFile : Option UploadFile → UploadResult
  | none => ⟨false, some "파일이 선택되지 않았습니다.", none⟩
  | some f =>
    if f.size > uploadLimit then ⟨false, some "파일 크기 초과", none⟩
    else ⟨true, none, none⟩

/-- One logical network operation issued by the upload orchestrator. -/
inductive NetOp where
  /-- `POST {base}/upload/init` with `{originalname, mimetype, size}`. -/
  | initOp (originalname mimetype : String) (size : Nat)
  /-- `PUT uploadUrl` streaming the raw file bytes. -/
  | transferOp (uploadUrl : String) (size : Nat)
  /-- `POST {base}/upload/complete/{uploadId}`. -/
  | completeOp (uploadId : String)
  deriving DecidableEq, Repr

/-- Environment of one upload: the current session and the backend's
responses to the init and complete calls (the happy network path; a
network/HTTP failure would propagate as a raised error through the
dispatcher, which claims about the orchestrator's own behaviour do not
need to model). -/
structure UploadEnv where
  user : Option User
  initResp : UploadData
  completeResp : FileRecord

/-- `FileService.initializeUpload`: throws when no usable token, otherwise
posts `/upload/init` and yields `response.data.data`. -/
def initializeUpload (env : UploadEnv) (f : UploadFile) : Except String (UploadData × List NetOp) :=
  if strTruthy (env.user.bind User.token) then
    .ok (env.initResp, [.initOp f.name f.type f.size])
  else
    .error "인증 정보가 없습니다."

/-- `FileService.uploadToS3`: one `PUT` of the raw bytes to the presigned
URL (progress callbacks are not modelled). -/
def uploadToS3 (uploadUrl : String) (f : UploadFile) : List NetOp :=
  [.transferOp uploadUrl f.size]

/-- `FileService.completeUpload`: throws when no usable token, otherwise
posts `/upload/complete/{uploadId}` and yields `response.data.data.file`. -/
def completeUpload (env : UploadEnv) (uploadId : String) : Except String (FileRecord × List NetOp) :=
  if strTruthy (env.user.bind User.token) then
    .ok (env.completeResp, [.completeOp uploadId])
  else
    .error "인증 정보가 없습니다."

/-- `FileService.uploadFile`: validate (returning the structured validation
result on failure), then init → transfer → complete, collecting the network
operations in order.  Raised errors are `Except.error`. -/
def uploadFile (env : UploadEnv) (file : Option UploadFile) : Except String (UploadResult × List NetOp) :=
  match file with
  | none => .ok (validateFile none, [])
  | some f =>
    if (validateFile (some f)).success = false then
      .ok (validateFile (some f), [])
    else
      match initializeUpload env f with
      | .error m => .error m
      | .ok (ud, ops1) =>
        let ops2 := uploadToS3 ud.uploadUrl f
        match completeUpload env ud.uploadId with
        | .error m => .error m
        | .ok (rcd, ops3) =>
          .ok (⟨true, none, some rcd⟩, ops1 ++ ops2 ++ ops3)

/-- `FileService.getFileUrl(filename, forPreview, withAuth)`: selects the
`view`/`download` endpoint; with `withAuth` and a truthy token it appends
`token` (and, when truthy, `sessionId`) through `URLSearchParams`; with no
usable token it silently returns the bare URL. -/
def getFileUrl (baseUrl filename : String) (forPreview withAuth : Bool)
    (user : Option User) : Except String String :=
  if filename = "" then .error "파일 이름이 제공되지 않았습니다."
  else
    let endpoint := if forPreview then "view" else "download"
    let url := baseUrl ++ "/api/files/" ++ endpoint ++ "/" ++ filename
    if withAuth then
      match user with
      | some u =>
        if strTruthy u.token then
          let params := ("token", u.token.getD "") ::
            (if strTruthy u.sessionId then [("sessionId", u.sessionId.getD "")] else [])
          .ok (url ++ "?" ++ searchParamsToString params)
        else
          .ok url
      | none => .ok url
    else
      .ok url

/-- `FileService.getPreviewUrl(file, withAuth)`: requires a file record with
a truthy filename; with `withAuth` it requires both a truthy token and a
truthy sessionId, throwing `"인증 정보가 없습니다."` otherwise, and appends
both as query parameters, each value passed through `encodeURIComponent`
and then serialized by `URLSearchParams` (the `new URL(...)`/`toString`
round-trip is modelled as the identity on the already-normalized base). -/
def getPreviewUrl (baseUrl : String) (file : Option FileRecord) (withAuth : Bool)
    (user : Option User) : Except String String :=
  match file with
  | none => .error "파일 정보가 제공되지 않았습니다."
  | some f =>
    if f.filename = "" then .error "파일 정보가 제공되지 않았습니다."
    else
      let previewUrl := baseUrl ++ "/api/files/view/" ++ f.filename
      if withAuth then
        if strTruthy (user.bind User.token) ∧ strTruthy (user.bind User.sessionId) then
          .ok (previewUrl ++ "?" ++ searchParamsToString
            [("token", encodeURIComponent ((user.bind User.token).getD "")),
             ("sessionId", encodeURIComponent ((user.bind User.sessionId).getD ""))])
        else
          .error "인증 정보가 없습니다."
      else
        .ok previewUrl

/-- Fuel-driven base-1024 logarithm (the fuel only makes the recursion
structural; `log1024` always supplies enough). -/
def log1024Aux : Nat → Nat → Nat
  | 0, _ => 0
  | fuel + 1, n => if n < 1024 then 0 else 1 + log1024Aux fuel (n / 1024)

/-- `Math.floor(Math.log(n) / Math.log(1024))` for `n ≥ 1`, embedded as the
exact base-1024 floor logarithm. -/
def log1024 (n : Nat) : Nat :=
  log1024Aux n n

/-- JavaScript `Number.prototype.toFixed(2)` applied to the exact fraction
`num / den` (`den > 0`): the integer `n` with `n/100` nearest to the value,
ties towards the larger `n` (ECMA-262), i.e. `⌊num·100/den + 1/2⌋`,
rendered with exactly two fraction digits. -/
def toFixed2 (num den : Nat) : String :=
  let n := (200 * num + den) / (2 * den)
  toString (n / 100) ++ "." ++ (if n % 100 < 10 then "0" else "") ++ toString (n % 100)

/-- `FileService.formatFileSize`: `"0 B"` for a falsy count, otherwise
`(bytes / 1024^i).toFixed(2)` with unit `sizes[i]`,
`i = floor(log bytes / log 1024)`. -/
def formatFileSize (bytes : Nat) : String :=
  if bytes = 0 then "0 B"
  else
    let sizes := ["B", "KB", "MB", "GB", "TB"]
    let i := log1024 bytes
    toFixed2 bytes (1024 ^ i) ++ " " ++ sizes.getD i "undefined"

/-! ## Helper lemmas -/

/-- Unfolding equation for `retryLoop`. -/
theorem retryLoop_eq (oracle : Nat → AttemptOutcome) (rc : Nat) :
    retryLoop oracle rc =
      match oracle rc with
      | .ok => (rc, true)
      | .fail e =>
        if isRetryableError (some e) ∧ rc < RETRY_CONFIG.maxRetries then
          retryLoop oracle (rc + 1)
        else (rc, false) := by
  rw [retryLoop]
  rcases h : oracle rc with _ | e <;> simp only [h, dite_eq_ite]

/-- The retry counter never leaves `[0, maxRetries]`: fuel-indexed form. -/
theorem retryLoop_counter_le (oracle : Nat → AttemptOutcome) :
    ∀ fuel rc, RETRY_CONFIG.maxRetries - rc ≤ fuel → rc ≤ RETRY_CONFIG.maxRetries →
      (retryLoop oracle rc).1 ≤ RETRY_CONFIG.maxRetries := by
  intro fuel
  induction fuel with
  | zero =>
    intro rc hf hrc
    rw [retryLoop_eq]
    cases h : oracle rc with
    | ok => simpa using hrc
    | fail e =>
      have : ¬ (isRetryableError (some e) ∧ rc < RETRY_CONFIG.maxRetries) := by
        rintro ⟨-, hlt⟩; omega
      simp [this, hrc]
  | succ n ih =>
    intro rc hf hrc
    rw [retryLoop_eq]
    cases h : oracle rc with
    | ok => simpa using hrc
    | fail e =>
      by_cases hcond : isRetryableError (some e) ∧ rc < RETRY_CONFIG.maxRetries
      · simp only [hcond, if_true]
        exact ih (rc + 1) (by omega) (by omega)
      · simp [hcond, hrc]

/-- A 401 response whose transport code is not a retryable code is never
classified retryable (401 is not in `retryableStatuses`, and a response is
present). -/
theorem isRetryableError_of_401 (e : AxiosError) (r : ErrResponse)
    (hr : e.response = some r) (hs : r.status = 401)
    (hcode : ∀ c, e.code = some c → c ∉ RETRY_CONFIG.retryableErrors) :
    isRetryableError (some e) = false := by
  obtain ⟨cfg, canc, code, resp, req⟩ := e
  simp only at hr
  subst hr
  unfold isRetryableError
  rcases code with _ | c
  · simp [hs, RETRY_CONFIG]
  · have hc := hcode c rfl
    simp [RETRY_CONFIG] at hc
    simp [hs, RETRY_CONFIG, hc]

/-- `getPreviewUrl` with authentication throws the missing-credentials error
whenever the token or the sessionId is absent (or empty). -/
theorem getPreviewUrl_missingCreds (baseUrl : String) (f : FileRecord) (hf : f.filename ≠ "")
    (u : Option User)
    (hu : strTruthy (u.bind User.token) = false ∨ strTruthy (u.bind User.sessionId) = false) :
    getPreviewUrl baseUrl (some f) true u = .error "인증 정보가 없습니다." := by
  have hcond : ¬ (strTruthy (u.bind User.token) ∧ strTruthy (u.bind User.sessionId)) := by
    rcases hu with h | h <;> simp [h]
  simp [getPreviewUrl, hf, hcond]

/-! ## Claims -/

/-- C1 (counterexample): the claimed lower bound
`initialDelay × backoffFactor^attemptNumber ≤ computeDelay(attemptNumber)`
fails at `attemptNumber = 3` with jitter factor 0: the raw exponential term
is 8000 ms but the delay is capped at `maxDelay = 5000` ms. -/
theorem getRetryDelay_lowerBound_counterexample :
    getRetryDelay 0 3 = 5000 ∧
    ¬ (RETRY_CONFIG.initialDelayMs * RETRY_CONFIG.backoffFactor ^ 3 ≤ getRetryDelay 0 3) := by
  constructor <;> norm_num [getRetryDelay, RETRY_CONFIG, min_def]

/-- C1 (amended): for every `attemptNumber ≥ 0` and every jitter factor in
`[0, 0.1]` (i.e. `Math.random()` value `rand ∈ [0,1]`),
`min(initialDelay × backoffFactor^attemptNumber, maxDelay) ≤
computeDelay(attemptNumber) ≤ maxDelay`. -/
theorem getRetryDelay_bounds (n : ℕ) (rand : ℚ) (h0 : 0 ≤ rand) (h1 : rand ≤ 1) :
    min (RETRY_CONFIG.initialDelayMs * RETRY_CONFIG.backoffFactor ^ n) RETRY_CONFIG.maxDelayMs
      ≤ getRetryDelay rand n ∧ getRetryDelay rand n ≤ RETRY_CONFIG.maxDelayMs := by
  unfold getRetryDelay
  refine ⟨min_le_min ?_ le_rfl, min_le_right _ _⟩
  have hb : (0:ℚ) ≤ RETRY_CONFIG.initialDelayMs * RETRY_CONFIG.backoffFactor ^ n := by
    simp only [RETRY_CONFIG]
    positivity
  nlinarith

/-- C1 witness: the bounds instantiated at `attemptNumber = 2`,
`rand = 1/2`. -/
theorem getRetryDelay_bounds_witness :
    (0:ℚ) ≤ 1/2 ∧ ((1:ℚ)/2 ≤ 1) ∧
    (min (RETRY_CONFIG.initialDelayMs * RETRY_CONFIG.backoffFactor ^ 2) RETRY_CONFIG.maxDelayMs
        ≤ getRetryDelay (1/2) 2 ∧ getRetryDelay (1/2) 2 ≤ RETRY_CONFIG.maxDelayMs) :=
  ⟨by norm_num, by norm_num, getRetryDelay_bounds 2 (1/2) (by norm_num) (by norm_num)⟩

/-- C3: `isRetryableError` classifies a failure as retryable exactly when
the transport code is one of the retryable codes, or the response status is
one of `{408, 429, 500, 502, 503, 504}`, or no response was received
despite the request having been sent; in particular 429 and 503 are
retryable and 400, 401, 403, 404 are not. -/
theorem isRetryableError_spec :
    (∀ e : AxiosError,
      isRetryableError (some e) = true ↔
        ((∃ c, e.code = some c ∧ c ∈ RETRY_CONFIG.retryableErrors) ∨
         (∃ r, e.response = some r ∧ r.status ∈ RETRY_CONFIG.retryableStatuses) ∨
         (e.response = none ∧ e.request = true))) ∧
    isRetryableError (some ⟨⟨"/r", "get", 0, none⟩, false, none, some ⟨429, none⟩, true⟩) = true ∧
    isRetryableError (some ⟨⟨"/r", "get", 0, none⟩, false, none, some ⟨503, none⟩, true⟩) = true ∧
    isRetryableError (some ⟨⟨"/r", "get", 0, none⟩, false, none, some ⟨400, none⟩, true⟩) = false ∧
    isRetryableError (some ⟨⟨"/r", "get", 0, none⟩, false, none, some ⟨401, none⟩, true⟩) = false ∧
    isRetryableError (some ⟨⟨"/r", "get", 0, none⟩, false, none, some ⟨403, none⟩, true⟩) = false ∧
    isRetryableError (some ⟨⟨"/r", "get", 0, none⟩, false, none, some ⟨404, none⟩, true⟩) = false := by
  refine ⟨?_, by decide, by decide, by decide, by decide, by decide, by decide⟩
  intro e
  obtain ⟨cfg, canc, code, resp, req⟩ := e
  unfold isRetryableError
  rcases code with _ | c <;> rcases resp with _ | r <;> simp [RETRY_CONFIG, strTruthy]
  · intro h
    rcases h with h | h | h | h | h | h <;> omega
  · constructor
    · rintro (⟨-, hd⟩ | hreq)
      · exact Or.inl hd
      · exact Or.inr hreq
    · rintro (hd | hreq)
      · refine Or.inl ⟨?_, hd⟩
        rcases hd with rfl | rfl | rfl | rfl | rfl <;> decide
      · exact Or.inr hreq
  · constructor
    · rintro (⟨-, hd⟩ | ⟨-, hd⟩)
      · exact Or.inl hd
      · exact Or.inr hd
    · rintro (hd | hd)
      · refine Or.inl ⟨?_, hd⟩
        rcases hd with rfl | rfl | rfl | rfl | rfl <;> decide
      · refine Or.inr ⟨?_, hd⟩
        rcases hd with h | h | h | h | h | h <;> omega

/-- C4: starting from any counter `rc ≤ maxRetries` (the interceptor starts
at `config.retryCount || 0 = 0`), the final counter never exceeds
`maxRetries`; a pass through the retry branch (retryable failure with
`rc < maxRetries`) re-enters the loop with the counter incremented by
exactly 1; and once the counter reaches `maxRetries` a failed attempt is
surfaced as a terminal failure without any further retry. -/
theorem retryLoop_spec (oracle : Nat → AttemptOutcome) (rc : Nat)
    (hrc : rc ≤ RETRY_CONFIG.maxRetries) :
    ((retryLoop oracle rc).1 ≤ RETRY_CONFIG.maxRetries) ∧
    (∀ e, oracle rc = .fail e → isRetryableError (some e) = true →
      rc < RETRY_CONFIG.maxRetries → retryLoop oracle rc = retryLoop oracle (rc + 1)) ∧
    (∀ e, oracle rc = .fail e → rc = RETRY_CONFIG.maxRetries →
      retryLoop oracle rc = (rc, false)) := by
  refine ⟨retryLoop_counter_le oracle _ rc le_rfl hrc, ?_, ?_⟩
  · intro e he hret hlt
    rw [retryLoop_eq]
    simp [he, hret, hlt]
  · intro e he heq
    rw [retryLoop_eq, he]
    simp [heq]

/-- C4 witness: the loop invariants instantiated at counter 0 with an
oracle whose first attempt succeeds. -/
theorem retryLoop_spec_witness :
    0 ≤ RETRY_CONFIG.maxRetries ∧
    (((retryLoop (fun _ => AttemptOutcome.ok) 0).1 ≤ RETRY_CONFIG.maxRetries) ∧
     (∀ e, AttemptOutcome.ok = AttemptOutcome.fail e → isRetryableError (some e) = true →
       0 < RETRY_CONFIG.maxRetries →
       retryLoop (fun _ => AttemptOutcome.ok) 0 = retryLoop (fun _ => AttemptOutcome.ok) (0 + 1)) ∧
     (∀ e, AttemptOutcome.ok = AttemptOutcome.fail e → 0 = RETRY_CONFIG.maxRetries →
       retryLoop (fun _ => AttemptOutcome.ok) 0 = (0, false))) :=
  ⟨by decide, retryLoop_spec (fun _ => AttemptOutcome.ok) 0 (by decide)⟩

/-- C2 (counterexample): the claim says that when the refresh capability
fails or yields no usable session, the handler invokes the external logout
capability.  When `refreshToken()` resolves to `false` (a non-throwing
refresh failure), the code skips the `catch` block: the original
AuthExpired error is surfaced with the logout flag `false`. -/
theorem refreshReturnedFalse_counterexample :
    handleResponseError ⟨.returned false, none⟩
        ⟨⟨"/api/rooms", "get", 0, none⟩, false, none, some ⟨401, none⟩, true⟩
      = (.surfaceEnhanced ⟨"인증이 필요하거나 만료되었습니다.", 401, none,
           ⟨"/api/rooms", "get", 0, none⟩⟩, false) := by
  rfl

/-- C2 (amended): for a failure carrying a 401 response whose transport code
is not a retryable code, the handler never takes the backoff-retry branch;
on refresh success with a usable token it replays the original config
exactly once with the refreshed `x-auth-token`; when the refresh capability
throws it invokes logout and surfaces the original AuthExpired error; when
the refresh returns `false` or yields no usable session it surfaces the
original AuthExpired error without logout — in every failure case without
further retry. -/
theorem handle401_spec (env : AuthEnv) (e : AxiosError) (r : ErrResponse)
    (hc : e.isCancel = false) (hr : e.response = some r) (hs : r.status = 401)
    (hcode : ∀ c, e.code = some c → c ∉ RETRY_CONFIG.retryableErrors) :
    (∀ cfg, (handleResponseError env e).1 ≠ .backoffRetry cfg) ∧
    (∀ u, env.refresh = .returned true → env.userAfterRefresh = some u →
      strTruthy u.token = true →
      handleResponseError env e = (.replay { e.config with authToken := u.token }, false)) ∧
    (env.refresh = .threw →
      handleResponseError env e = (.surfaceEnhanced (buildEnhancedError 401 r.data e.config), true)) ∧
    ((env.refresh = .returned false ∨
        (env.refresh = .returned true ∧ strTruthy (env.userAfterRefresh.bind User.token) = false)) →
      handleResponseError env e = (.surfaceEnhanced (buildEnhancedError 401 r.data e.config), false)) := by
  have hretry := isRetryableError_of_401 e r hr hs hcode
  refine ⟨?_, ?_, ?_, ?_⟩
  · intro cfg
    simp [handleResponseError, hc, hr, hs, hretry]
    rcases env.refresh with _ | b
    · simp
    · cases b
      · simp
      · rcases env.userAfterRefresh with _ | u <;> simp
        by_cases htok : strTruthy u.token <;> simp [htok]
  · intro u h1 h2 h3
    simp [handleResponseError, hc, hr, hs, hretry, h1, h2, h3]
  · intro h1
    simp [handleResponseError, hc, hr, hs, hretry, h1]
  · rintro (h1 | ⟨h1, h2⟩)
    · simp [handleResponseError, hc, hr, hs, hretry, h1]
    · rcases hu : env.userAfterRefresh with _ | u
      · simp [handleResponseError, hc, hr, hs, hretry, h1, hu]
      · rw [hu] at h2
        simp [Option.bind] at h2
        simp [handleResponseError, hc, hr, hs, hretry, h1, hu, h2]

/-- C2 witness: a 401 failure with a successful refresh yielding a fresh
token is replayed exactly once with the refreshed `x-auth-token`. -/
theorem handle401_spec_witness :
    handleResponseError ⟨.returned true, some ⟨some "newTok", some "sid"⟩⟩
        ⟨⟨"/api/rooms", "get", 0, some "oldTok"⟩, false, none, some ⟨401, none⟩, true⟩
      = (.replay ⟨"/api/rooms", "get", 0, some "newTok"⟩, false) :=
  (handle401_spec ⟨.returned true, some ⟨some "newTok", some "sid"⟩⟩
      ⟨⟨"/api/rooms", "get", 0, some "oldTok"⟩, false, none, some ⟨401, none⟩, true⟩
      ⟨401, none⟩ rfl rfl rfl (fun _ h => nomatch h)).2.1
    ⟨some "newTok", some "sid"⟩ rfl rfl (by decide)

/-- C5: for every present file with `size ≤ 50 MiB` and a usable session
token, `uploadFile` issues exactly the three network operations
init → transfer (to the presigned `uploadUrl`) → complete, in that order,
and returns `{success: true, data: fileRecord}`. -/
theorem uploadFile_happyPath (env : UploadEnv) (f : UploadFile)
    (hsize : f.size ≤ uploadLimit) (htok : strTruthy (env.user.bind User.token) = true) :
    uploadFile env (some f) = .ok (⟨true, none, some env.completeResp⟩,
      [.initOp f.name f.type f.size, .transferOp env.initResp.uploadUrl f.size,
       .completeOp env.initResp.uploadId]) := by
  simp [uploadFile, validateFile, initializeUpload, uploadToS3, completeUpload,
        Nat.not_lt.mpr hsize, htok]

/-- C5 witness: a 12-byte upload with a session present. -/
theorem uploadFile_happyPath_witness :
    12 ≤ uploadLimit ∧
    strTruthy ((some (⟨some "tok", none⟩ : User)).bind User.token) = true ∧
    uploadFile ⟨some ⟨some "tok", none⟩, ⟨"uid1", "https://bucket/u1"⟩, ⟨"stored.png"⟩⟩
        (some ⟨"a.png", "image/png", 12⟩)
      = .ok (⟨true, none, some ⟨"stored.png"⟩⟩,
             [.initOp "a.png" "image/png" 12, .transferOp "https://bucket/u1" 12,
              .completeOp "uid1"]) :=
  ⟨by decide, by decide,
   uploadFile_happyPath ⟨some ⟨some "tok", none⟩, ⟨"uid1", "https://bucket/u1"⟩, ⟨"stored.png"⟩⟩
     ⟨"a.png", "image/png", 12⟩ (by decide) (by decide)⟩

/-- C6: for a file over the 50 MiB limit, and likewise for a missing file,
`uploadFile` issues zero network operations and returns the structured
`{success: false, message}` result without raising. -/
theorem uploadFile_validationFailure (env : UploadEnv) (f : UploadFile)
    (h : uploadLimit < f.size) :
    uploadFile env (some f) = .ok (⟨false, some "파일 크기 초과", none⟩, []) ∧
    uploadFile env none = .ok (⟨false, some "파일이 선택되지 않았습니다.", none⟩, []) := by
  constructor
  · simp [uploadFile, validateFile, h]
  · rfl

/-- C6 witness: a file one byte over the limit. -/
theorem uploadFile_validationFailure_witness :
    uploadLimit < 52428801 ∧
    (uploadFile ⟨some ⟨some "tok", none⟩, ⟨"uid1", "https://bucket/u1"⟩, ⟨"stored.png"⟩⟩
        (some ⟨"big.bin", "application/zip", 52428801⟩)
      = .ok (⟨false, some "파일 크기 초과", none⟩, []) ∧
     uploadFile ⟨some ⟨some "tok", none⟩, ⟨"uid1", "https://bucket/u1"⟩, ⟨"stored.png"⟩⟩ none
      = .ok (⟨false, some "파일이 선택되지 않았습니다.", none⟩, [])) :=
  ⟨by decide,
   uploadFile_validationFailure ⟨some ⟨some "tok", none⟩, ⟨"uid1", "https://bucket/u1"⟩, ⟨"stored.png"⟩⟩
     ⟨"big.bin", "application/zip", 52428801⟩ (by decide)⟩

/-- C7: `getPreviewUrl(file, withAuth := true)` raises the
missing-credentials error whenever the session token or sessionId is
absent (in particular with no session at all), and with both present the
returned address carries both the encoded `token` and the encoded
`sessionId` query parameter. -/
theorem getPreviewUrl_spec (baseUrl : String) (f : FileRecord) (hf : f.filename ≠ "")
    (u : Option User) :
    (strTruthy (u.bind User.token) = false ∨ strTruthy (u.bind User.sessionId) = false →
      getPreviewUrl baseUrl (some f) true u = .error "인증 정보가 없습니다.") ∧
    (∀ t s, u = some ⟨some t, some s⟩ → t ≠ "" → s ≠ "" →
      getPreviewUrl baseUrl (some f) true u
        = .ok (baseUrl ++ "/api/files/view/" ++ f.filename ++ "?" ++
               ("token" ++ "=" ++ formEncode (encodeURIComponent t) ++ "&" ++
                ("sessionId" ++ "=" ++ formEncode (encodeURIComponent s))))) := by
  constructor
  · exact getPreviewUrl_missingCreds baseUrl f hf u
  · intro t s hu ht hs
    subst hu
    simp [getPreviewUrl, strTruthy, searchParamsToString, hf, ht, hs, Option.bind]
    rfl

/-- C7 witness: with token and sessionId present the preview address
carries both query parameters. -/
theorem getPreviewUrl_spec_witness :
    getPreviewUrl "http://h" (some ⟨"f.png"⟩) true (some ⟨some "tok", some "sid"⟩)
      = .ok ("http://h" ++ "/api/files/view/" ++ "f.png" ++ "?" ++
             ("token" ++ "=" ++ formEncode (encodeURIComponent "tok") ++ "&" ++
              ("sessionId" ++ "=" ++ formEncode (encodeURIComponent "sid")))) :=
  (getPreviewUrl_spec "http://h" ⟨"f.png"⟩ (by decide) (some ⟨some "tok", some "sid"⟩)).2
    "tok" "sid" rfl (by decide) (by decide)

/-- C8 (counterexample): the claim covers every failure with no response,
but a cancelled request (no response received) is re-rejected unchanged by
the early `axios.isCancel` branch — the surfaced outcome is not the
status-0 network-unreachable error. -/
theorem cancelledFailure_counterexample :
    handleResponseError ⟨.returned false, none⟩
        ⟨⟨"/api/msgs", "get", 0, none⟩, true, some "ERR_CANCELED", none, true⟩
      = (.surfaceCancel, false) ∧
    ∀ err : NetworkError, (HandlerOutcome.surfaceCancel : HandlerOutcome)
      ≠ HandlerOutcome.surfaceNetwork err := by
  refine ⟨rfl, ?_⟩
  intro err h
  exact HandlerOutcome.noConfusion h

/-- C8 (amended): every non-cancelled failure with no response that the
handler surfaces (i.e. that the backoff branch does not consume) is
surfaced as the network-unreachable error: status 0, the fixed two-sentence
template message extended with the transport code when present, and the
replay capability closing over the original request config. -/
theorem networkErrorSurface_spec (env : AuthEnv) (e : AxiosError)
    (hnc : e.isCancel = false) (hnr : e.response = none)
    (hsurf : ¬ (isRetryableError (some e) = true ∧
                e.config.retryCount < RETRY_CONFIG.maxRetries)) :
    handleResponseError env e = (.surfaceNetwork (buildNetworkError e), false) ∧
    (buildNetworkError e).status = 0 ∧
    (buildNetworkError e).message = networkErrMessage e.code ∧
    (buildNetworkError e).replayCfg = e.config := by
  refine ⟨?_, rfl, rfl, rfl⟩
  simp [handleResponseError, hnc, hnr, hsurf]

/-- C8 witness: a no-response failure that has exhausted its retries is
surfaced as the network-unreachable error. -/
theorem networkErrorSurface_spec_witness :
    handleResponseError ⟨.returned false, none⟩
        ⟨⟨"/api/msgs", "get", 3, none⟩, false, some "ERR_NETWORK", none, true⟩
      = (.surfaceNetwork (buildNetworkError
            ⟨⟨"/api/msgs", "get", 3, none⟩, false, some "ERR_NETWORK", none, true⟩), false) :=
  (networkErrorSurface_spec ⟨.returned false, none⟩
      ⟨⟨"/api/msgs", "get", 3, none⟩, false, some "ERR_NETWORK", none, true⟩
      rfl rfl (by decide)).1

/-- C9 (counterexample): the numeric part is not written by truncation:
`1030/1024 = 1.005859375`, which truncates to `1.00` but `toFixed(2)`
rounds to `1.01`, so `formatFileSize 1030 = "1.01 KB"`, not `"1.00 KB"`. -/
theorem formatFileSize_truncation_counterexample :
    formatFileSize 1030 = "1.01 KB" ∧ formatFileSize 1030 ≠ "1.00 KB" := by
  constructor <;> decide

/-- C9 (amended): `formatFileSize` renders a byte count with base-1024
units (B, KB, MB, GB, TB), the numeric part written to two decimal places
by rounding to nearest (ties away from zero, as `toFixed(2)`); in
particular `formatFileSize 0 = "0 B"`, `formatFileSize 1024 = "1.00 KB"`,
`formatFileSize 1536 = "1.50 KB"`, and the rounding case
`formatFileSize 1030 = "1.01 KB"`. -/
theorem formatFileSize_spec :
    formatFileSize 0 = "0 B" ∧ formatFileSize 1024 = "1.00 KB" ∧
    formatFileSize 1536 = "1.50 KB" ∧ formatFileSize 1030 = "1.01 KB" ∧
    formatFileSize 500 = "500.00 B" ∧ formatFileSize (1024 ^ 2) = "1.00 MB" ∧
    formatFileSize (1024 ^ 3) = "1.00 GB" ∧ formatFileSize (1024 ^ 4) = "1.00 TB" := by
  refine ⟨?_, ?_, ?_, ?_, ?_, ?_, ?_, ?_⟩ <;> decide

/-- C10: `getFileUrl(filename, forPreview, withAuth := true)` with no
session (or a session without a usable token) returns the bare endpoint
URL — no `token` or `sessionId` query parameter, and no `?` at all — and
does not raise, whereas `getPreviewUrl` raises the missing-credentials
error in the same situation. -/
theorem getFileUrl_missingAuth_spec (baseUrl filename : String) (hfn : filename ≠ "")
    (forPreview : Bool) (u : Option User)
    (hu : strTruthy (u.bind User.token) = false) :
    getFileUrl baseUrl filename forPreview true u
      = .ok (baseUrl ++ "/api/files/" ++ (if forPreview then "view" else "download")
             ++ "/" ++ filename) ∧
    getPreviewUrl baseUrl (some ⟨filename⟩) true u = .error "인증 정보가 없습니다." := by
  constructor
  · rcases u with _ | user
    · simp [getFileUrl, hfn]
    · simp [Option.bind] at hu
      simp [getFileUrl, hfn, hu]
  · exact getPreviewUrl_missingCreds baseUrl ⟨filename⟩ hfn u (Or.inl hu)

/-- C10 witness: with no session, the download URL is returned bare while
the preview URL raises. -/
theorem getFileUrl_missingAuth_spec_witness :
    getFileUrl "http://h" "f.png" false true none
      = .ok ("http://h" ++ "/api/files/" ++ (if false then "view" else "download")
             ++ "/" ++ "f.png") ∧
    getPreviewUrl "http://h" (some ⟨"f.png"⟩) true none = .error "인증 정보가 없습니다." :=
  getFileUrl_missingAuth_spec "http://h" "f.png" (by decide) false none rfl
